import Mathlib

/-!
Shallow embedding of `src/calender_sync.py` (Canvas → Google Calendar sync).

The script fetches assignment records from the Canvas API and, for each record
with a due date, builds a Google Calendar event body and issues a single
`events().insert` call.  The Google Calendar service is an external
collaborator: it is modelled here as a function from a state and an event body
to a new state together with either success or a raised exception carrying a
message string (Python catches `Exception` and inspects `str(e)`).

Timestamps are modelled as instants: seconds since the Unix epoch (`Int`).
`datetime.datetime.fromisoformat` applied after `due_at.replace('Z', '+00:00')`
(line 83 of the source) is embedded as an executable parser returning
`Option Int`; it accepts `YYYY-MM-DD`, optionally followed by a separator
character and `HH:MM[:SS]`, optionally followed by a UTC offset `±HH:MM`
(fractional seconds are not used by any input considered here).
-/

set_option autoImplicit false

namespace CalenderSync

/-- Value of a decimal digit character, `none` when not a digit. -/
def digitVal (c : Char) : Option Nat :=
  if c.isDigit then some (c.toNat - 48) else none

/-- Two-digit decimal number. -/
def num2 (a b : Char) : Option Nat := do
  let x ← digitVal a
  let y ← digitVal b
  pure (10 * x + y)

/-- Four-digit decimal number. -/
def num4 (a b c d : Char) : Option Nat := do
  let x ← num2 a b
  let y ← num2 c d
  pure (100 * x + y)

/-- Gregorian leap year, as in Python's `calendar.isleap`. -/
def isLeapYear (y : Nat) : Bool :=
  (y % 4 == 0 && y % 100 != 0) || y % 400 == 0

/-- Number of days in a month (1-12) of a given year. -/
def daysInMonth (y m : Nat) : Nat :=
  if m = 2 then (if isLeapYear y then 29 else 28)
  else if m = 4 ∨ m = 6 ∨ m = 9 ∨ m = 11 then 30
  else 31

/-- Days from 1970-01-01 to the civil date `y-m-d` (standard civil-calendar
formula, specialised to years ≥ 1 so all arithmetic is on `Nat`). -/
def daysFromCivil (y m d : Nat) : Int :=
  let y2 := if m ≤ 2 then y - 1 else y
  let era := y2 / 400
  let yoe := y2 % 400
  let mp := if 2 < m then m - 3 else m + 9
  let doy := (153 * mp + 2) / 5 + d - 1
  let doe := yoe * 365 + yoe / 4 - yoe / 100 + doy
  ((era * 146097 + doe : Nat) : Int) - 719468

/-- Parse the leading `YYYY-MM-DD` of an ISO-8601 string; validates month and
day ranges as `datetime.date` does, and returns the rest of the input. -/
def parseDate : List Char → Option (Nat × Nat × Nat × List Char)
  | y1 :: y2 :: y3 :: y4 :: '-' :: m1 :: m2 :: '-' :: d1 :: d2 :: rest => do
    let y ← num4 y1 y2 y3 y4
    let m ← num2 m1 m2
    let d ← num2 d1 d2
    if 1 ≤ y ∧ 1 ≤ m ∧ m ≤ 12 ∧ 1 ≤ d ∧ d ≤ daysInMonth y m then
      pure (y, m, d, rest)
    else
      none
  | _ => none

/-- Parse `HH:MM[:SS]`, returning the second-of-day and the rest of the
input. -/
def parseTime : List Char → Option (Nat × List Char)
  | h1 :: h2 :: ':' :: m1 :: m2 :: rest => do
    let hh ← num2 h1 h2
    let mm ← num2 m1 m2
    if hh ≤ 23 ∧ mm ≤ 59 then
      match rest with
      | ':' :: s1 :: s2 :: rest2 => do
        let ss ← num2 s1 s2
        if ss ≤ 59 then pure (hh * 3600 + mm * 60 + ss, rest2) else none
      | _ => pure (hh * 3600 + mm * 60, rest)
    else
      none
  | _ => none

/-- Parse an optional trailing UTC offset `±HH:MM`, in seconds.  A naive
datetime (no offset) is interpreted at offset 0, matching the script's use of
UTC timestamps throughout. -/
def parseOffset : List Char → Option Int
  | [] => some 0
  | '+' :: h1 :: h2 :: ':' :: m1 :: m2 :: [] => do
    let hh ← num2 h1 h2
    let mm ← num2 m1 m2
    if hh ≤ 23 ∧ mm ≤ 59 then pure ((hh * 3600 + mm * 60 : Nat) : Int) else none
  | '-' :: h1 :: h2 :: ':' :: m1 :: m2 :: [] => do
    let hh ← num2 h1 h2
    let mm ← num2 m1 m2
    if hh ≤ 23 ∧ mm ≤ 59 then pure (-((hh * 3600 + mm * 60 : Nat) : Int)) else none
  | _ => none

/-- Embedding of `datetime.datetime.fromisoformat` (as used on line 83),
returning the instant as seconds since the Unix epoch, or `none` when the
string is not a valid isoformat string (in which case Python raises
`ValueError`).  As in CPython ≤ 3.10, the character between date and time may
be anything. -/
def fromisoformat (s : String) : Option Int := do
  let (y, m, d, rest) ← parseDate s.data
  match rest with
  | [] => pure (daysFromCivil y m d * 86400)
  | _sep :: trest => do
    let (secs, rest2) ← parseTime trest
    let off ← parseOffset rest2
    pure (daysFromCivil y m d * 86400 + (secs : Int) - off)

/-- Embedding of `due_at.replace('Z', '+00:00')` (line 83): every occurrence
of `Z` is replaced. -/
def replaceZ (s : String) : String :=
  String.mk (s.data.foldr
    (fun c acc => if c = 'Z' then '+' :: '0' :: '0' :: ':' :: '0' :: '0' :: acc else c :: acc)
    [])

/-- `GOOGLE_CALENDAR_ID` (line 19 of the source). -/
def GOOGLE_CALENDAR_ID : String := "primary"

/-- One Canvas assignment record as the script reads it.  Each field models
`assignment.get(key)`: `none` when the key is absent.  The `id` field holds
the string rendering of the Canvas assignment id, as interpolated by the
f-string on line 100.  `context_name` is returned by the Canvas API but is
never read by the script. -/
structure Assignment where
  id : Option String
  name : Option String
  due_at : Option String
  context_name : Option String
  html_url : Option String
deriving DecidableEq, Repr

/-- Python truthiness of `assignment.get('due_at')` (line 79, `if not due_at`):
`None` and the empty string are falsy. -/
def truthyStr : Option String → Bool
  | none => false
  | some s => !s.isEmpty

/-- Python's f-string rendering of an optional value: `None` renders as the
string `None` (relevant to line 100, `f"canvas{assignment.get('id')}"`). -/
def pyStrOpt : Option String → String
  | none => "None"
  | some s => s

/-- The derived calendar event id (line 100):
`'id': f"canvas{assignment.get('id')}"`. -/
def eventIdOf (assignment : Assignment) : String :=
  "canvas" ++ pyStrOpt assignment.id

/-- The event body built on lines 88-101, with the two timestamps as epoch
instants (`start.dateTime`/`end.dateTime` carry `timeZone: UTC`). -/
structure EventBody where
  summary : String
  description : String
  startTime : Int
  endTime : Int
  id : String
deriving DecidableEq, Repr

/-- The body built for assignment `a` once its due instant `t` is parsed
(lines 86-101): summary from the `name` field with default
`Untitled Assignment` (line 76), start is one hour before the due instant
(line 86). -/
def mkBody (a : Assignment) (t : Int) : EventBody :=
  { summary := "Assignment: " ++ a.name.getD ("Untitled Assignment")
    description := "Due: " ++ a.name.getD ("Untitled Assignment") ++
      "\nView in Canvas: " ++ a.html_url.getD ("N/A")
    startTime := t - 3600
    endTime := t
    id := eventIdOf a }

/-- Result of one call on the external Google Calendar client: success, or a
raised exception whose message is what `str(e)` yields in Python. -/
inductive ApiResult where
  | ok
  | exn (msg : String)
deriving DecidableEq, Repr

/-- Calls the script can issue on the external Google Calendar client
(section 6 of the service interface: `events().insert` and
`events().update`).  The script itself only ever issues `insert`. -/
inductive ApiCall where
  | insert (calendarId : String) (body : EventBody)
  | update (calendarId : String) (eventId : String) (body : EventBody)
deriving DecidableEq, Repr

/-- Per-record terminal status, mirroring the script's prints: `skipped`
(no due date, line 80, no output), `succeeded` (insert succeeded, line 110),
`alreadyExists` (exception whose message contains `already exists`,
lines 115-116), `failed` (any other exception, line 118). -/
inductive Status where
  | skipped
  | succeeded
  | alreadyExists
  | failed
deriving DecidableEq, Repr

/-- Does `needle` start the list `hay`? -/
def listStartsWith : List Char → List Char → Bool
  | [], _ => true
  | _ :: _, [] => false
  | a :: as, b :: bs => a == b && listStartsWith as bs

/-- Does `needle` occur as a contiguous sublist of `hay`? -/
def listContainsSub (needle : List Char) : List Char → Bool
  | [] => listStartsWith needle []
  | c :: cs => listStartsWith needle (c :: cs) || listContainsSub needle cs

/-- Python's `needle in hay` substring test (line 115,
`'already exists' in str(e)`). -/
def strContains (hay needle : String) : Bool :=
  listContainsSub needle.data hay.data

/-- Outcome of processing one record: the service state after the call, the
terminal status, the lines printed, and the client calls issued. -/
structure StepOut (σ : Type) where
  st : σ
  status : Status
  lines : List String
  calls : List ApiCall
deriving Repr, DecidableEq

/-- The `try/except` dispatch on the outcome of
`service.events().insert(...).execute()` (lines 103-118): success prints the
success line; an exception whose message contains `already exists` prints the
skipping line; any other exception prints the error line.  No branch
re-raises and no branch issues a further client call. -/
def insertOutcome {σ : Type} (name : String) (body : EventBody) :
    σ × ApiResult → StepOut σ
  | (st2, ApiResult.ok) =>
    ⟨st2, Status.succeeded,
      ["Successfully added/updated event: " ++ name],
      [ApiCall.insert GOOGLE_CALENDAR_ID body]⟩
  | (st2, ApiResult.exn msg) =>
    if strContains msg ("already exists") then
      ⟨st2, Status.alreadyExists,
        ["Event '" ++ name ++ "' already exists. Skipping."],
        [ApiCall.insert GOOGLE_CALENDAR_ID body]⟩
    else
      ⟨st2, Status.failed,
        ["An error occurred while adding '" ++ name ++ "': " ++ msg],
        [ApiCall.insert GOOGLE_CALENDAR_ID body]⟩

/-- Issue the insert call (lines 106-109) and handle its outcome with the
`try/except` of lines 103-118. -/
def applyApi {σ : Type} (api : σ → EventBody → σ × ApiResult) (st : σ)
    (name : String) (body : EventBody) : StepOut σ :=
  insertOutcome name body (api st body)

/-- Embedding of `add_event_to_google_calendar(service, assignment)`
(lines 74-118).  The external service is the parameter `api`.  The `Except`
layer models an uncaught Python exception: `fromisoformat` is called on
line 83, outside the `try` block, so a truthy but unparseable `due_at`
raises a `ValueError` that propagates to the caller. -/
def add_event_to_google_calendar {σ : Type} (api : σ → EventBody → σ × ApiResult)
    (st : σ) (assignment : Assignment) : Except String (StepOut σ) :=
  let name := assignment.name.getD ("Untitled Assignment")
  let due_at := assignment.due_at
  if truthyStr due_at then
    match fromisoformat (replaceZ (due_at.getD (""))) with
    | none => Except.error ("Invalid isoformat string: " ++ due_at.getD (""))
    | some due => Except.ok (applyApi api st name (mkBody assignment due))
  else
    Except.ok ⟨st, Status.skipped, [], []⟩

/-- The record loop of `main` (lines 143-144): records are processed in
order; an uncaught exception from one record aborts the rest of the loop. -/
def runSync {σ : Type} (api : σ → EventBody → σ × ApiResult) (st : σ) :
    List Assignment → Except String (σ × List Status × List String × List ApiCall)
  | [] => Except.ok (st, [], [], [])
  | a :: rest =>
    match add_event_to_google_calendar api st a with
    | Except.error e => Except.error e
    | Except.ok out =>
      match runSync api out.st rest with
      | Except.error e => Except.error e
      | Except.ok (st2, stats, lines, calls) =>
        Except.ok (st2, out.status :: stats, out.lines ++ lines, out.calls ++ calls)

/-- Embedding of `get_canvas_assignments()` (lines 50-72): the HTTP exchange
is the parameter `response`; a `requests` failure (network error, non-2xx
status via `raise_for_status`, malformed JSON body) is caught, the error line
is printed and the empty list is returned. -/
def get_canvas_assignments (response : Except String (List Assignment)) :
    List String × List Assignment :=
  match response with
  | Except.ok records => ([], records)
  | Except.error e => (["Error fetching assignments from Canvas: " ++ e], [])

/-- Embedding of `main()` (lines 121-146).  `credsOk` is whether
`get_google_creds()` produced credentials; `response` is the Canvas HTTP
exchange.  The result is the list of printed lines and the list of calendar
client calls issued; `Except.error` models the process dying on an uncaught
exception. -/
def main {σ : Type} (api : σ → EventBody → σ × ApiResult) (st : σ)
    (credsOk : Bool) (response : Except String (List Assignment)) :
    Except String (List String × List ApiCall) :=
  if credsOk then
    let (fetchLines, assignments) := get_canvas_assignments response
    if assignments.isEmpty then
      Except.ok (["Starting Canvas to Google Calendar sync..."] ++
        ["Successfully authenticated with Google Calendar."] ++
        ["Fetching assignments from Canvas..."] ++ fetchLines ++
        ["No upcoming assignments found or error fetching them."], [])
    else
      match runSync api st assignments with
      | Except.error e => Except.error e
      | Except.ok (_, _, lines, calls) =>
        Except.ok (["Starting Canvas to Google Calendar sync..."] ++
          ["Successfully authenticated with Google Calendar."] ++
          ["Fetching assignments from Canvas..."] ++ fetchLines ++
          ["Found " ++ toString assignments.length ++ " upcoming assignments."] ++
          lines ++ ["\nSync process complete."], calls)
  else
    Except.ok (["Starting Canvas to Google Calendar sync...",
      "Could not authenticate with Google. Exiting."], [])

/-- Idealised Google Calendar service with the documented conflict semantics
(section 6 of the service contract): the state is the list of existing event
ids; inserting an id that already exists raises a 409 whose message contains
`already exists`; otherwise the event is stored. -/
def idealApi (st : List String) (body : EventBody) : List String × ApiResult :=
  if body.id ∈ st then
    (st, ApiResult.exn ("409 The requested identifier already exists."))
  else
    (body.id :: st, ApiResult.ok)

/-- A record is well formed when a truthy `due_at` parses as an isoformat
string, i.e. processing it raises no uncaught exception. -/
def wellFormedB (a : Assignment) : Bool :=
  !truthyStr a.due_at || (fromisoformat (replaceZ (a.due_at.getD ("")))).isSome

/-- The event ids of the records that carry a (truthy) due date, in record
order. -/
def dueKeys (recs : List Assignment) : List String :=
  (recs.filter (fun a => truthyStr a.due_at)).map eventIdOf

/-- Modelled from the spec: the normalization the data-model section ascribes
to the event-id derivation — the record id lowercased with all
non-alphanumeric characters stripped (the code has no such transform; this
definition exists only to be compared against `eventIdOf`). -/
def specNormalizeId (s : String) : String :=
  String.mk ((s.data.map Char.toLower).filter Char.isAlphanum)

/-- The header lines `main` prints before the record loop when `n` records
were fetched (lines 123, 132, 135, 140). -/
def headerLines (n : Nat) : List String :=
  ["Starting Canvas to Google Calendar sync...",
   "Successfully authenticated with Google Calendar.",
   "Fetching assignments from Canvas...",
   "Found " ++ toString n ++ " upcoming assignments."]

/-- The scenario record of the spec: id `991`, title `Essay 1`,
due `2025-09-21T03:59:59Z`. -/
def rec991 : Assignment :=
  { id := some ("991"), name := some ("Essay 1"),
    due_at := some ("2025-09-21T03:59:59Z"),
    context_name := none, html_url := none }

/-- The scenario record after a title and due-date change, same id. -/
def rec991b : Assignment :=
  { id := some ("991"), name := some ("Essay 1 (renamed)"),
    due_at := some ("2025-10-01T00:00:00Z"),
    context_name := some ("MATH101"), html_url := some ("https://canvas.example/991") }

/-- A record without a due date. -/
def recNoDue : Assignment :=
  { id := some ("5"), name := some ("HW 2"), due_at := none,
    context_name := some ("MATH101"), html_url := some ("https://canvas.example/5") }

/-- A due-bearing record carrying a course context and a url. -/
def recCtx : Assignment :=
  { id := some ("7"), name := some ("Essay 1"),
    due_at := some ("2025-09-21T03:59:59Z"),
    context_name := some ("MATH101"), html_url := some ("https://canvas.example/7") }

/-- A record whose id contains an uppercase letter and a dash. -/
def recDash : Assignment :=
  { id := some ("A-b"), name := some ("Quiz"),
    due_at := some ("2025-09-21T03:59:59Z"),
    context_name := none, html_url := none }

/-- A record whose `due_at` is truthy but not a valid isoformat string. -/
def recBadDue : Assignment :=
  { id := some ("1"), name := some ("HW 1"), due_at := some ("soon"),
    context_name := none, html_url := none }

/-- A record with no `id` field. -/
def recNoId1 : Assignment :=
  { id := none, name := some ("Reading 1"),
    due_at := some ("2025-09-21T03:59:59Z"),
    context_name := none, html_url := some ("https://canvas.example/r1") }

/-- A second, distinct record with no `id` field. -/
def recNoId2 : Assignment :=
  { id := none, name := some ("Reading 2"),
    due_at := some ("2025-09-22T03:59:59Z"),
    context_name := none, html_url := some ("https://canvas.example/r2") }

/-- A service on which every call raises an authorization error. -/
def authFailApi (st : List String) (_body : EventBody) : List String × ApiResult :=
  (st, ApiResult.exn ("401 Unauthorized"))

/-- Whatever the service outcome, the handler issues exactly the one insert
call it was given. -/
theorem insertOutcome_calls {σ : Type} (name : String) (body : EventBody)
    (p : σ × ApiResult) :
    (insertOutcome name body p).calls = [ApiCall.insert GOOGLE_CALENDAR_ID body] := by
  rcases p with ⟨st2, r⟩
  cases r with
  | ok => rfl
  | exn msg =>
    by_cases h : strContains msg ("already exists") = true
    · simp [insertOutcome, h]
    · simp only [insertOutcome]
      rw [if_neg (by simpa using h)]

/-- Whatever the service outcome, the handler prints exactly one line. -/
theorem insertOutcome_lines_len {σ : Type} (name : String) (body : EventBody)
    (p : σ × ApiResult) :
    (insertOutcome name body p).lines.length = 1 := by
  rcases p with ⟨st2, r⟩
  cases r with
  | ok => rfl
  | exn msg =>
    by_cases h : strContains msg ("already exists") = true
    · simp [insertOutcome, h]
    · simp only [insertOutcome]
      rw [if_neg (by simpa using h)]
      rfl

/-- On a record with a truthy, parseable due date the step reduces to the
insert attempt on the built body. -/
theorem add_event_due {σ : Type} (api : σ → EventBody → σ × ApiResult) (st : σ)
    (a : Assignment) (t : Int) (ht : truthyStr a.due_at = true)
    (hp : fromisoformat (replaceZ (a.due_at.getD (""))) = some t) :
    add_event_to_google_calendar api st a =
      Except.ok (applyApi api st (a.name.getD ("Untitled Assignment")) (mkBody a t)) := by
  simp [add_event_to_google_calendar, ht, hp]

/-- Inserting a fresh id on the idealised service succeeds and stores it. -/
theorem applyApi_ideal_fresh (st : List String) (name : String) (body : EventBody)
    (h : body.id ∉ st) :
    applyApi idealApi st name body =
      ⟨body.id :: st, Status.succeeded,
        ["Successfully added/updated event: " ++ name],
        [ApiCall.insert GOOGLE_CALENDAR_ID body]⟩ := by
  simp [applyApi, idealApi, h, insertOutcome]

/-- Inserting an id already present on the idealised service raises the 409
conflict, which the handler turns into the skipping line; the stored events
are unchanged. -/
theorem applyApi_ideal_present (st : List String) (name : String) (body : EventBody)
    (h : body.id ∈ st) :
    applyApi idealApi st name body =
      ⟨st, Status.alreadyExists,
        ["Event '" ++ name ++ "' already exists. Skipping."],
        [ApiCall.insert GOOGLE_CALENDAR_ID body]⟩ := by
  have hc : strContains ("409 The requested identifier already exists.")
      ("already exists") = true := by decide
  simp [applyApi, idealApi, h, insertOutcome, hc]

/-- Unfolding of the record loop on a cons cell when neither the head step
nor the tail loop raises. -/
theorem runSync_cons_ok {σ : Type} (api : σ → EventBody → σ × ApiResult) (st : σ)
    (a : Assignment) (rest : List Assignment) (out : StepOut σ)
    {st2 : σ} {stats : List Status} {lines : List String} {calls : List ApiCall}
    (h : add_event_to_google_calendar api st a = Except.ok out)
    (h2 : runSync api out.st rest = Except.ok (st2, stats, lines, calls)) :
    runSync api st (a :: rest) =
      Except.ok (st2, out.status :: stats, out.lines ++ lines, out.calls ++ calls) := by
  simp [runSync, h, h2]

/-- When every record with a truthy due date parses, the record loop runs to
completion for any service behavior whatsoever, yields one terminal status
per record, and prints one line per due-bearing record. -/
theorem runSync_total {σ : Type} (api : σ → EventBody → σ × ApiResult) (st : σ)
    (recs : List Assignment) (hwf : ∀ a ∈ recs, wellFormedB a = true) :
    ∃ st2 stats lines calls,
      runSync api st recs = Except.ok (st2, stats, lines, calls) ∧
      stats.length = recs.length ∧
      lines.length = (recs.filter (fun a => truthyStr a.due_at)).length := by
  induction recs generalizing st with
  | nil => exact ⟨st, [], [], [], rfl, rfl, rfl⟩
  | cons a rest ih =>
    have hwfrest : ∀ b ∈ rest, wellFormedB b = true :=
      fun b hb => hwf b (List.mem_cons_of_mem a hb)
    by_cases ha : truthyStr a.due_at = true
    · have hw := hwf a (List.mem_cons_self a rest)
      have hsome : (fromisoformat (replaceZ (a.due_at.getD ("")))).isSome = true := by
        simpa [wellFormedB, ha] using hw
      obtain ⟨t, ht⟩ := Option.isSome_iff_exists.mp hsome
      obtain ⟨st2, stats, lines, calls, hrest, hslen, hllen⟩ :=
        ih (applyApi api st (a.name.getD ("Untitled Assignment")) (mkBody a t)).st hwfrest
      refine ⟨st2,
        (applyApi api st (a.name.getD ("Untitled Assignment")) (mkBody a t)).status :: stats,
        (applyApi api st (a.name.getD ("Untitled Assignment")) (mkBody a t)).lines ++ lines,
        (applyApi api st (a.name.getD ("Untitled Assignment")) (mkBody a t)).calls ++ calls,
        runSync_cons_ok api st a rest _ (add_event_due api st a t ha ht) hrest, ?_, ?_⟩
      · simp [hslen]
      · have h1 : (applyApi api st (a.name.getD ("Untitled Assignment"))
            (mkBody a t)).lines.length = 1 :=
          insertOutcome_lines_len (a.name.getD ("Untitled Assignment")) (mkBody a t)
            (api st (mkBody a t))
        simp [h1, hllen, List.filter_cons, ha, Nat.add_comm]
    · have hstep : add_event_to_google_calendar api st a =
          Except.ok ⟨st, Status.skipped, [], []⟩ := by
        simp [add_event_to_google_calendar, ha]
      obtain ⟨st2, stats, lines, calls, hrest, hslen, hllen⟩ := ih st hwfrest
      refine ⟨st2, Status.skipped :: stats, lines, calls, ?_, ?_, ?_⟩
      · simpa using runSync_cons_ok api st a rest ⟨st, Status.skipped, [], []⟩ hstep hrest
      · simp [hslen]
      · simp [hllen, List.filter_cons, ha]

/-- First run on the idealised service: when every record parses, every due
key is absent from the stored events, and the due keys are mutually distinct,
every due-bearing record is created (and its key stored) and every other
record is skipped. -/
theorem runSync_ideal_fresh (recs : List Assignment) (st0 : List String)
    (hwf : ∀ a ∈ recs, wellFormedB a = true)
    (hfresh : ∀ a ∈ recs, truthyStr a.due_at = true → eventIdOf a ∉ st0)
    (hnd : (dueKeys recs).Nodup) :
    ∃ lines calls,
      runSync idealApi st0 recs =
        Except.ok ((dueKeys recs).reverse ++ st0,
          recs.map (fun a => if truthyStr a.due_at then Status.succeeded else Status.skipped),
          lines, calls) := by
  induction recs generalizing st0 with
  | nil => exact ⟨[], [], by simp [runSync, dueKeys]⟩
  | cons a rest ih =>
    have hwfrest : ∀ b ∈ rest, wellFormedB b = true :=
      fun b hb => hwf b (List.mem_cons_of_mem a hb)
    by_cases ha : truthyStr a.due_at = true
    · have hw := hwf a (List.mem_cons_self a rest)
      have hsome : (fromisoformat (replaceZ (a.due_at.getD ("")))).isSome = true := by
        simpa [wellFormedB, ha] using hw
      obtain ⟨t, ht⟩ := Option.isSome_iff_exists.mp hsome
      have hdk : dueKeys (a :: rest) = eventIdOf a :: dueKeys rest := by
        simp [dueKeys, List.filter_cons, ha]
      rw [hdk] at hnd
      have hnotmem : eventIdOf a ∉ dueKeys rest := (List.nodup_cons.mp hnd).1
      have hnd' : (dueKeys rest).Nodup := (List.nodup_cons.mp hnd).2
      have hid : (mkBody a t).id = eventIdOf a := rfl
      have happ : applyApi idealApi st0 (a.name.getD ("Untitled Assignment")) (mkBody a t) =
          ⟨eventIdOf a :: st0, Status.succeeded,
            ["Successfully added/updated event: " ++ a.name.getD ("Untitled Assignment")],
            [ApiCall.insert GOOGLE_CALENDAR_ID (mkBody a t)]⟩ := by
        rw [applyApi_ideal_fresh st0 _ (mkBody a t)
          (by rw [hid]; exact hfresh a (List.mem_cons_self a rest) ha), hid]
      have hfresh' : ∀ b ∈ rest, truthyStr b.due_at = true →
          eventIdOf b ∉ (eventIdOf a :: st0) := by
        intro b hb hbdue hmem
        rcases List.mem_cons.mp hmem with he | he
        · exact hnotmem (he ▸ List.mem_map_of_mem eventIdOf
            (List.mem_filter.mpr ⟨hb, hbdue⟩))
        · exact hfresh b (List.mem_cons_of_mem a hb) hbdue he
      obtain ⟨lines, calls, hrest⟩ := ih (eventIdOf a :: st0) hwfrest hfresh' hnd'
      have hstepl : add_event_to_google_calendar idealApi st0 a =
          Except.ok ⟨eventIdOf a :: st0, Status.succeeded,
            ["Successfully added/updated event: " ++ a.name.getD ("Untitled Assignment")],
            [ApiCall.insert GOOGLE_CALENDAR_ID (mkBody a t)]⟩ := by
        rw [add_event_due idealApi st0 a t ha ht, happ]
      have hcons := runSync_cons_ok idealApi st0 a rest _ hstepl hrest
      refine ⟨("Successfully added/updated event: " ++ a.name.getD ("Untitled Assignment")) :: lines,
        ApiCall.insert GOOGLE_CALENDAR_ID (mkBody a t) :: calls, ?_⟩
      rw [hdk]
      simpa [ha, List.append_assoc] using hcons
    · have hstep : add_event_to_google_calendar idealApi st0 a =
          Except.ok ⟨st0, Status.skipped, [], []⟩ := by
        simp [add_event_to_google_calendar, ha]
      have hdk : dueKeys (a :: rest) = dueKeys rest := by
        simp [dueKeys, List.filter_cons, ha]
      rw [hdk] at hnd
      have hfresh' : ∀ b ∈ rest, truthyStr b.due_at = true → eventIdOf b ∉ st0 :=
        fun b hb => hfresh b (List.mem_cons_of_mem a hb)
      obtain ⟨lines, calls, hrest⟩ := ih st0 hwfrest hfresh' hnd
      have hcons := runSync_cons_ok idealApi st0 a rest ⟨st0, Status.skipped, [], []⟩ hstep hrest
      refine ⟨lines, calls, ?_⟩
      rw [hdk]
      simpa [ha] using hcons

/-- Second run on the idealised service: when every record parses and every
due key is already stored, every due-bearing record hits the 409 conflict and
is reported as already existing; the stored events are unchanged, so no
duplicate is ever created. -/
theorem runSync_ideal_present (recs : List Assignment) (st : List String)
    (hwf : ∀ a ∈ recs, wellFormedB a = true)
    (hpres : ∀ a ∈ recs, truthyStr a.due_at = true → eventIdOf a ∈ st) :
    ∃ lines calls,
      runSync idealApi st recs =
        Except.ok (st,
          recs.map (fun a => if truthyStr a.due_at then Status.alreadyExists else Status.skipped),
          lines, calls) := by
  induction recs with
  | nil => exact ⟨[], [], by simp [runSync]⟩
  | cons a rest ih =>
    have hwfrest : ∀ b ∈ rest, wellFormedB b = true :=
      fun b hb => hwf b (List.mem_cons_of_mem a hb)
    have hpresrest : ∀ b ∈ rest, truthyStr b.due_at = true → eventIdOf b ∈ st :=
      fun b hb => hpres b (List.mem_cons_of_mem a hb)
    obtain ⟨lines, calls, hrest⟩ := ih hwfrest hpresrest
    by_cases ha : truthyStr a.due_at = true
    · have hw := hwf a (List.mem_cons_self a rest)
      have hsome : (fromisoformat (replaceZ (a.due_at.getD ("")))).isSome = true := by
        simpa [wellFormedB, ha] using hw
      obtain ⟨t, ht⟩ := Option.isSome_iff_exists.mp hsome
      have hid : (mkBody a t).id = eventIdOf a := rfl
      have happ : applyApi idealApi st (a.name.getD ("Untitled Assignment")) (mkBody a t) =
          ⟨st, Status.alreadyExists,
            ["Event '" ++ a.name.getD ("Untitled Assignment") ++ "' already exists. Skipping."],
            [ApiCall.insert GOOGLE_CALENDAR_ID (mkBody a t)]⟩ := by
        rw [applyApi_ideal_present st _ (mkBody a t)
          (by rw [hid]; exact hpres a (List.mem_cons_self a rest) ha)]
      have hstepl : add_event_to_google_calendar idealApi st a =
          Except.ok ⟨st, Status.alreadyExists,
            ["Event '" ++ a.name.getD ("Untitled Assignment") ++ "' already exists. Skipping."],
            [ApiCall.insert GOOGLE_CALENDAR_ID (mkBody a t)]⟩ := by
        rw [add_event_due idealApi st a t ha ht, happ]
      have hcons := runSync_cons_ok idealApi st a rest _ hstepl hrest
      refine ⟨("Event '" ++ a.name.getD ("Untitled Assignment") ++ "' already exists. Skipping.") :: lines,
        ApiCall.insert GOOGLE_CALENDAR_ID (mkBody a t) :: calls, ?_⟩
      simpa [ha] using hcons
    · have hstep : add_event_to_google_calendar idealApi st a =
          Except.ok ⟨st, Status.skipped, [], []⟩ := by
        simp [add_event_to_google_calendar, ha]
      have hcons := runSync_cons_ok idealApi st a rest ⟨st, Status.skipped, [], []⟩ hstep hrest
      refine ⟨lines, calls, ?_⟩
      simpa [ha] using hcons

/-- C1 counterexample: on the scenario record, when the event id is already
stored (so the insert raises the 409 conflict), the step issues only the one
insert call — no update call with the newly built body follows — and the
record ends as `already exists. Skipping`, not as updated. -/
theorem C1_counterexample :
    add_event_to_google_calendar idealApi (["canvas991"]) rec991 =
      Except.ok ⟨["canvas991"], Status.alreadyExists,
        ["Event 'Essay 1' already exists. Skipping."],
        [ApiCall.insert ("primary")
          { summary := "Assignment: Essay 1",
            description := "Due: Essay 1\nView in Canvas: N/A",
            startTime := 1758423599, endTime := 1758427199, id := "canvas991" }]⟩ := rfl

/-- C1 as amended: on insert conflict no update is attempted — the record is
reported as already existing and skipped.  Running the reconciler twice on an
unchanged, well-formed record set with pairwise-distinct fresh event ids
yields `succeeded` (created) for every due-bearing record on the first run
and `alreadyExists` (skipped, not created, no duplicate: the stored event
set is unchanged) on the second. -/
theorem C1_amended (recs : List Assignment) (st0 : List String)
    (hwf : ∀ a ∈ recs, wellFormedB a = true)
    (hfresh : ∀ a ∈ recs, truthyStr a.due_at = true → eventIdOf a ∉ st0)
    (hnd : (dueKeys recs).Nodup) :
    ∃ st1 lines1 calls1 lines2 calls2,
      runSync idealApi st0 recs =
        Except.ok (st1,
          recs.map (fun a => if truthyStr a.due_at then Status.succeeded else Status.skipped),
          lines1, calls1) ∧
      runSync idealApi st1 recs =
        Except.ok (st1,
          recs.map (fun a => if truthyStr a.due_at then Status.alreadyExists else Status.skipped),
          lines2, calls2) := by
  obtain ⟨l1, c1, h1⟩ := runSync_ideal_fresh recs st0 hwf hfresh hnd
  have hpres : ∀ a ∈ recs, truthyStr a.due_at = true →
      eventIdOf a ∈ (dueKeys recs).reverse ++ st0 := by
    intro a ha hd
    have : eventIdOf a ∈ dueKeys recs :=
      List.mem_map_of_mem eventIdOf (List.mem_filter.mpr ⟨ha, hd⟩)
    simp [List.mem_append, List.mem_reverse, this]
  obtain ⟨l2, c2, h2⟩ := runSync_ideal_present recs ((dueKeys recs).reverse ++ st0) hwf hpres
  exact ⟨(dueKeys recs).reverse ++ st0, l1, c1, l2, c2, h1, h2⟩

/-- C1 witness: the two-run property instantiated on the scenario record and
an initially empty calendar. -/
theorem C1_amended_witness :
    ∃ st1 lines1 calls1 lines2 calls2,
      runSync idealApi ([] : List String) [rec991] =
        Except.ok (st1, [Status.succeeded], lines1, calls1) ∧
      runSync idealApi st1 [rec991] =
        Except.ok (st1, [Status.alreadyExists], lines2, calls2) :=
  C1_amended [rec991] [] (by decide) (by decide) (by decide)

/-- C2: the derived event id is a pure function of the record id alone — two
records with the same id yield the same event id regardless of their other
fields, and the derivation is deterministic across runs. -/
theorem C2_event_id_pure (a1 a2 : Assignment) (h : a1.id = a2.id) :
    eventIdOf a1 = eventIdOf a2 := by
  simp [eventIdOf, h]

/-- C2 witness: the scenario record and a variant with a changed title, due
date, context and url but the same id derive the same event id. -/
theorem C2_event_id_pure_witness :
    rec991.id = rec991b.id ∧ eventIdOf rec991 = eventIdOf rec991b :=
  ⟨rfl, C2_event_id_pure rec991 rec991b rfl⟩

/-- C3: for every record with a truthy, parseable due date the step inserts
the built body, whose end is the due instant and whose start is the due
instant minus one hour; on the scenario record the event id is `canvas991`,
the end is the instant `2025-09-21T03:59:59Z` and the start is the instant
`2025-09-21T02:59:59Z`. -/
theorem C3_time_window :
    (∀ {σ : Type} (api : σ → EventBody → σ × ApiResult) (st : σ) (a : Assignment)
      (t : Int), truthyStr a.due_at = true →
      fromisoformat (replaceZ (a.due_at.getD (""))) = some t →
      add_event_to_google_calendar api st a =
        Except.ok (applyApi api st (a.name.getD ("Untitled Assignment")) (mkBody a t)) ∧
      (mkBody a t).startTime = t - 3600 ∧ (mkBody a t).endTime = t) ∧
    (eventIdOf rec991 = "canvas991" ∧
     fromisoformat (replaceZ ("2025-09-21T03:59:59Z")) = some 1758427199 ∧
     fromisoformat (replaceZ ("2025-09-21T02:59:59Z")) = some 1758423599 ∧
     (mkBody rec991 1758427199).startTime = 1758423599 ∧
     (mkBody rec991 1758427199).endTime = 1758427199) := by
  constructor
  · intro σ api st a t ht hp
    exact ⟨add_event_due api st a t ht hp, rfl, rfl⟩
  · exact ⟨rfl, by decide, by decide, by decide, rfl⟩

/-- C3 witness: the universal part applied to the scenario record. -/
theorem C3_time_window_witness :
    add_event_to_google_calendar idealApi ([] : List String) rec991 =
      Except.ok (applyApi idealApi ([] : List String) ("Essay 1") (mkBody rec991 1758427199)) ∧
    (mkBody rec991 1758427199).startTime = 1758427199 - 3600 ∧
    (mkBody rec991 1758427199).endTime = 1758427199 :=
  C3_time_window.1 idealApi ([] : List String) rec991 1758427199 (by decide) (by decide)

/-- C4 counterexample: a record whose `due_at` is truthy but not a valid
isoformat string makes `fromisoformat` (called outside the `try` block) raise
an uncaught exception that aborts the whole record loop — the scenario record
after it is never processed. -/
theorem C4_counterexample :
    runSync idealApi ([] : List String) [recBadDue, rec991] =
      Except.error ("Invalid isoformat string: soon") ∧
    truthyStr recBadDue.due_at = true :=
  ⟨rfl, rfl⟩

/-- C4 as amended: every failure of the insert call itself — conflict, auth,
network, malformed body, any service behavior whatsoever — is caught at the
point of occurrence, reported, and the loop continues: whenever every record
with a truthy due date parses, the loop completes with one terminal status per
record.  (A record whose truthy due date does not parse, however, raises an
uncaught exception that aborts the remaining loop, per the counterexample.) -/
theorem C4_amended {σ : Type} (api : σ → EventBody → σ × ApiResult) (st : σ)
    (recs : List Assignment) (hwf : ∀ a ∈ recs, wellFormedB a = true) :
    ∃ st2 stats lines calls,
      runSync api st recs = Except.ok (st2, stats, lines, calls) ∧
      stats.length = recs.length :=
  match runSync_total api st recs hwf with
  | ⟨st2, stats, lines, calls, h, hs, _⟩ => ⟨st2, stats, lines, calls, h, hs⟩

/-- C4 witness: on a service where every insert raises an auth error, a
two-record run still completes with a status for each record. -/
theorem C4_amended_witness :
    ∃ st2 stats lines calls,
      runSync authFailApi ([] : List String) [rec991, recCtx] =
        Except.ok (st2, stats, lines, calls) ∧
      stats.length = [rec991, recCtx].length :=
  C4_amended authFailApi ([] : List String) [rec991, recCtx] (by decide)

/-- C5: a record whose `due_at` is absent is a no-op — the step returns
without raising, issues no insert and no update call, prints nothing and
leaves the service untouched. -/
theorem C5_no_due_noop {σ : Type} (api : σ → EventBody → σ × ApiResult) (st : σ)
    (a : Assignment) (h : truthyStr a.due_at = false) :
    add_event_to_google_calendar api st a =
      Except.ok ⟨st, Status.skipped, [], []⟩ := by
  simp [add_event_to_google_calendar, h]

/-- C5 witness: the no-op on a concrete record without a due date. -/
theorem C5_no_due_noop_witness :
    add_event_to_google_calendar idealApi ([] : List String) recNoDue =
      Except.ok ⟨[], Status.skipped, [], []⟩ :=
  C5_no_due_noop idealApi ([] : List String) recNoDue (by decide)

/-- C6 counterexample: on a record titled `Essay 1` with course context
`MATH101`, the built summary is `Assignment: Essay 1` — not equal to the
title — and the built description does not mention the course context at
all. -/
theorem C6_counterexample :
    add_event_to_google_calendar idealApi ([] : List String) recCtx =
      Except.ok ⟨["canvas7"], Status.succeeded,
        ["Successfully added/updated event: Essay 1"],
        [ApiCall.insert ("primary")
          { summary := "Assignment: Essay 1",
            description := "Due: Essay 1\nView in Canvas: https://canvas.example/7",
            startTime := 1758423599, endTime := 1758427199, id := "canvas7" }]⟩ ∧
    ¬ ("Assignment: Essay 1" = recCtx.name.getD ("Untitled Assignment")) ∧
    strContains ("Due: Essay 1\nView in Canvas: https://canvas.example/7")
      ("MATH101") = false :=
  ⟨rfl, by decide, by decide⟩

/-- C6 as amended: for every record with a truthy, parseable due date the
inserted body has summary `Assignment: ` followed by the record title (with
the fixed placeholder `Untitled Assignment` when the title is absent), and a
description composed from the title and the url only — the course context is
not used. -/
theorem C6_amended {σ : Type} (api : σ → EventBody → σ × ApiResult) (st : σ)
    (a : Assignment) (t : Int) (ht : truthyStr a.due_at = true)
    (hp : fromisoformat (replaceZ (a.due_at.getD (""))) = some t) :
    ∃ out, add_event_to_google_calendar api st a = Except.ok out ∧
      out.calls = [ApiCall.insert GOOGLE_CALENDAR_ID (mkBody a t)] ∧
      (mkBody a t).summary = "Assignment: " ++ a.name.getD ("Untitled Assignment") ∧
      (mkBody a t).description = "Due: " ++ a.name.getD ("Untitled Assignment") ++
        "\nView in Canvas: " ++ a.html_url.getD ("N/A") :=
  ⟨applyApi api st (a.name.getD ("Untitled Assignment")) (mkBody a t),
    add_event_due api st a t ht hp,
    insertOutcome_calls (a.name.getD ("Untitled Assignment")) (mkBody a t)
      (api st (mkBody a t)),
    rfl, rfl⟩

/-- C6 witness: the amended body shape on a concrete record. -/
theorem C6_amended_witness :
    ∃ out, add_event_to_google_calendar idealApi ([] : List String) recCtx =
        Except.ok out ∧
      out.calls = [ApiCall.insert GOOGLE_CALENDAR_ID (mkBody recCtx 1758427199)] ∧
      (mkBody recCtx 1758427199).summary =
        "Assignment: " ++ recCtx.name.getD ("Untitled Assignment") ∧
      (mkBody recCtx 1758427199).description =
        "Due: " ++ recCtx.name.getD ("Untitled Assignment") ++
        "\nView in Canvas: " ++ recCtx.html_url.getD ("N/A") :=
  C6_amended idealApi ([] : List String) recCtx 1758427199 (by decide) (by decide)

/-- C7 counterexample: for the record id `A-b` the code derives
`canvasA-b` — the id is neither lowercased nor stripped of non-alphanumeric
characters, so the derived id differs from the normalization the claim
describes. -/
theorem C7_counterexample :
    eventIdOf recDash = "canvasA-b" ∧
    "canvas" ++ specNormalizeId ("A-b") = "canvasab" ∧
    ¬ eventIdOf recDash = "canvas" ++ specNormalizeId ("A-b") :=
  ⟨rfl, by decide, by decide⟩

/-- C7 as amended: the derived event id is the fixed namespace tag `canvas`
followed by the record id exactly as rendered (no lowercasing, no stripping),
and that id is what the insert call targets. -/
theorem C7_amended {σ : Type} (api : σ → EventBody → σ × ApiResult) (st : σ)
    (a : Assignment) (t : Int) (ht : truthyStr a.due_at = true)
    (hp : fromisoformat (replaceZ (a.due_at.getD (""))) = some t) :
    ∃ out, add_event_to_google_calendar api st a = Except.ok out ∧
      out.calls = [ApiCall.insert GOOGLE_CALENDAR_ID (mkBody a t)] ∧
      (mkBody a t).id = "canvas" ++ pyStrOpt a.id :=
  ⟨applyApi api st (a.name.getD ("Untitled Assignment")) (mkBody a t),
    add_event_due api st a t ht hp,
    insertOutcome_calls (a.name.getD ("Untitled Assignment")) (mkBody a t)
      (api st (mkBody a t)),
    rfl⟩

/-- C7 witness: the amended id derivation on the dashed-id record. -/
theorem C7_amended_witness :
    ∃ out, add_event_to_google_calendar idealApi ([] : List String) recDash =
        Except.ok out ∧
      out.calls = [ApiCall.insert GOOGLE_CALENDAR_ID (mkBody recDash 1758427199)] ∧
      (mkBody recDash 1758427199).id = "canvas" ++ pyStrOpt recDash.id :=
  C7_amended idealApi ([] : List String) recDash 1758427199 (by decide) (by decide)

/-- C8: a fetch failure of any kind is treated as zero records — the run ends
normally with the error line and the no-assignments line, performing zero
insert or update calls; a successful fetch of an empty list likewise performs
zero calls. -/
theorem C8_fetch_failure_zero_writes :
    (∀ {σ : Type} (api : σ → EventBody → σ × ApiResult) (st : σ) (msg : String),
      main api st true (Except.error msg) =
        Except.ok (["Starting Canvas to Google Calendar sync..."] ++
          ["Successfully authenticated with Google Calendar."] ++
          ["Fetching assignments from Canvas..."] ++
          ["Error fetching assignments from Canvas: " ++ msg] ++
          ["No upcoming assignments found or error fetching them."], [])) ∧
    (∀ {σ : Type} (api : σ → EventBody → σ × ApiResult) (st : σ),
      main api st true (Except.ok []) =
        Except.ok (["Starting Canvas to Google Calendar sync..."] ++
          ["Successfully authenticated with Google Calendar."] ++
          ["Fetching assignments from Canvas..."] ++ [] ++
          ["No upcoming assignments found or error fetching them."], [])) := by
  constructor
  · intro σ api st msg
    rfl
  · intro σ api st
    rfl

/-- C9 counterexample: a run over one skipped record and a run over one
created record — the skipped record produces no per-record status line, and
both runs end with the same fixed closing line, which carries no counts of
created, updated, skipped or failed records. -/
theorem C9_counterexample :
    main idealApi ([] : List String) true (Except.ok [recNoDue]) =
      Except.ok (["Starting Canvas to Google Calendar sync...",
        "Successfully authenticated with Google Calendar.",
        "Fetching assignments from Canvas...",
        "Found 1 upcoming assignments.",
        "\nSync process complete."], []) ∧
    main idealApi ([] : List String) true (Except.ok [rec991]) =
      Except.ok (["Starting Canvas to Google Calendar sync...",
        "Successfully authenticated with Google Calendar.",
        "Fetching assignments from Canvas...",
        "Found 1 upcoming assignments.",
        "Successfully added/updated event: Essay 1",
        "\nSync process complete."],
        [ApiCall.insert ("primary")
          { summary := "Assignment: Essay 1",
            description := "Due: Essay 1\nView in Canvas: N/A",
            startTime := 1758423599, endTime := 1758427199, id := "canvas991" }]) :=
  ⟨rfl, rfl⟩

/-- C9 as amended: on a non-empty, well-formed record set the run prints the
header lines, then exactly one status line per due-bearing record (skipped
records print nothing), and ends with the fixed line `Sync process
complete.`, which contains no counts. -/
theorem C9_amended {σ : Type} (api : σ → EventBody → σ × ApiResult) (st : σ)
    (recs : List Assignment) (hne : recs ≠ [])
    (hwf : ∀ a ∈ recs, wellFormedB a = true) :
    ∃ recLines calls,
      main api st true (Except.ok recs) =
        Except.ok (headerLines recs.length ++ recLines ++
          ["\nSync process complete."], calls) ∧
      recLines.length = (recs.filter (fun a => truthyStr a.due_at)).length := by
  obtain ⟨st2, stats, lines, calls, hrun, hslen, hllen⟩ := runSync_total api st recs hwf
  refine ⟨lines, calls, ?_, hllen⟩
  have hne2 : recs.isEmpty = false := by
    cases recs with
    | nil => exact absurd rfl hne
    | cons a rest => rfl
  simp [main, get_canvas_assignments, hne2, hrun, headerLines]

/-- C9 witness: the amended output shape on a two-record list with one
skipped and one created record. -/
theorem C9_amended_witness :
    ∃ recLines calls,
      main idealApi ([] : List String) true (Except.ok [recNoDue, rec991]) =
        Except.ok (headerLines 2 ++ recLines ++
          ["\nSync process complete."], calls) ∧
      recLines.length = 1 :=
  C9_amended idealApi ([] : List String) [recNoDue, rec991] (by decide) (by decide)

/-- C10: two records that both lack the id field both derive the event id
`canvasNone` — Python renders the missing id as `None` — so their built
bodies target the same calendar event and the at-most-one-event-per-record
guarantee fails for id-less records. -/
theorem C10_missing_id_collision (a1 a2 : Assignment) (t1 t2 : Int)
    (h1 : a1.id = none) (h2 : a2.id = none) :
    eventIdOf a1 = "canvasNone" ∧ eventIdOf a2 = "canvasNone" ∧
    (mkBody a1 t1).id = (mkBody a2 t2).id := by
  simp [mkBody, eventIdOf, pyStrOpt, h1, h2]

/-- C10 witness: two distinct id-less records with different titles, due
dates and urls derive the same event id. -/
theorem C10_missing_id_collision_witness :
    eventIdOf recNoId1 = "canvasNone" ∧ eventIdOf recNoId2 = "canvasNone" ∧
    (mkBody recNoId1 1758427199).id = (mkBody recNoId2 1758513599).id :=
  C10_missing_id_collision recNoId1 recNoId2 1758427199 1758513599 rfl rfl

end CalenderSync
